import Mathlib

/-!
# Verification of the label-driven email-to-chat forwarding pipeline

Shallow embedding of `src/piDiscordBot.py` and proofs about the claims of
its specification.  Python dictionaries returned by the mail provider are
modelled as structures with `Option` fields for keys that may be absent
(indexing an absent key raises `KeyError`, modelled as `Except.error`).
Python exceptions are values of `PyError`; a function that may raise
returns `Except PyError _`.  External collaborators (the Gmail service and
the Discord client) are oracles: structures of pure functions supplied as
parameters.
-/

namespace PiBot

/-- Python exception values that the embedded code can raise. -/
inductive PyError
  /-- `KeyError` from indexing a missing dictionary key. -/
  | keyError (key : String)
  /-- `NameError` from evaluating an unbound name. -/
  | nameError (nm : String)
  /-- `binascii.Error` from a failed base64 decode. -/
  | binasciiError
  /-- Any error raised by a provider (network, auth, malformed response). -/
  | providerError (msg : String)
deriving DecidableEq, Repr

/-! ## Base64, as CPython implements it

`base64.b64decode` (with default `validate=False`) calls
`binascii.a2b_base64` in non-strict mode: characters outside the alphabet
are skipped, a padding character at quad position 0 or 1 is ignored, and a
padding run that completes a quad of at least two data characters ends the
decode successfully, ignoring the rest of the input.  At end of input the
quad position must be 0, otherwise the call raises `binascii.Error`
("Incorrect padding", or the dedicated message when the data-character
count is 1 more than a multiple of 4).  `a2b` below is that loop; its
state is the quad position, the pending bits (`leftchar`) and the count of
padding characters seen in the current run. -/

/-- The standard base64 alphabet, in value order. -/
def b64chars : List Char :=
  "ABCDEFGHIJKLMNOPQRSTUVWXYZabcdefghijklmnopqrstuvwxyz0123456789+/".data

/-- Index of a character in a list, counting from `i`. -/
def b64valAux : List Char → Nat → Char → Option Nat
  | [], _, _ => none
  | c :: cs, i, target => if target = c then some i else b64valAux cs (i + 1) target

/-- The 6-bit value of a base64 alphabet character (`table_a2b_base64`). -/
def b64val (c : Char) : Option Nat := b64valAux b64chars 0 c

/-- The alphabet character for a 6-bit value. -/
def b64digit (x : Nat) : Char := b64chars.getD x 'A'

/-- CPython's `binascii.a2b_base64` main loop in non-strict mode.
Arguments after the input are the quad position, the pending bits and the
padding-run counter; `none` is a raised `binascii.Error`. -/
def a2b : List Char → Nat → Nat → Nat → Option (List Nat)
  | [], qp, _, _ => if qp = 0 then some [] else none
  | c :: cs, qp, lc, pads =>
    if c = '=' then
      if 2 ≤ qp ∧ 4 ≤ qp + (pads + 1) then some []
      else if 2 ≤ qp then a2b cs qp lc (pads + 1)
      else a2b cs qp lc pads
    else
      match b64val c with
      | none => a2b cs qp lc pads
      | some v =>
        match qp with
        | 0 => a2b cs 1 v 0
        | 1 => Option.map (fun t => (lc * 4 + v / 16) :: t) (a2b cs 2 (v % 16) 0)
        | 2 => Option.map (fun t => (lc * 16 + v / 4) :: t) (a2b cs 3 (v % 4) 0)
        | _ => Option.map (fun t => (lc * 64 + v) :: t) (a2b cs 0 0 0)

/-- Is a character outside the ASCII range? `base64.b64decode` applied to
a `str` first encodes it as ASCII and raises on any non-ASCII character. -/
def isNonAscii (c : Char) : Bool := 128 ≤ c.toNat

/-- `base64.b64decode` on a `str` argument: ASCII-encode, then run the
non-strict `a2b_base64` loop. `none` is a raised error. -/
def b64decodePy (s : List Char) : Option (List Nat) :=
  if s.any isNonAscii then none else a2b s 0 0 0

/-- The character translation done by `base64.urlsafe_b64decode` before
delegating to `b64decode`. -/
def urlsafeTr (c : Char) : Char :=
  if c = '-' then '+' else if c = '_' then '/' else c

/-- `base64.urlsafe_b64decode(attachData.encode('UTF-8'))` as called in
`downloadPhotosFromEmail`: translate `-`/`_`, then run the non-strict
decoder (a `bytes` argument is not ASCII-checked; out-of-alphabet bytes
are skipped by the non-strict loop). -/
def urlsafeB64decodePy (s : String) : Option (List Nat) :=
  a2b (s.data.map urlsafeTr) 0 0 0

/-- `base64.b64encode`, without final padding: 3 input bytes become 4
alphabet characters, a 2-byte tail becomes 3 and a 1-byte tail becomes 2. -/
def encNoPad : List Nat → List Char
  | b1 :: b2 :: b3 :: rest =>
    b64digit (b1 / 4) :: b64digit (b1 % 4 * 16 + b2 / 16) ::
      b64digit (b2 % 16 * 4 + b3 / 64) :: b64digit (b3 % 64) :: encNoPad rest
  | [b1, b2] => [b64digit (b1 / 4), b64digit (b1 % 4 * 16 + b2 / 16), b64digit (b2 % 16 * 4)]
  | [b1] => [b64digit (b1 / 4), b64digit (b1 % 4 * 16)]
  | [] => []

/-- Number of `=` padding characters `base64.b64encode` appends. -/
def padLen (bs : List Nat) : Nat :=
  match bs.length % 3 with
  | 0 => 0
  | 1 => 2
  | _ => 1

/-- `base64.b64encode`: the alphabet characters followed by the padding. -/
def b64encode (bs : List Nat) : List Char :=
  encNoPad bs ++ List.replicate (padLen bs) '='

/-! ## UTF-8 decoding (`bytes.decode('utf-8')`, strict) -/

/-- Strict UTF-8 decoding of a byte list into code points, rejecting
stray continuation bytes, overlong encodings, surrogates and code points
above `0x10FFFF`, exactly as Python's strict `bytes.decode('utf-8')`. -/
def utf8Decode : List Nat → Option (List Char)
  | [] => some []
  | b :: rest =>
    if b < 128 then Option.map (fun t => Char.ofNat b :: t) (utf8Decode rest)
    else if b < 194 then none
    else if b < 224 then
      match rest with
      | b2 :: rest2 =>
        if 128 ≤ b2 ∧ b2 < 192 then
          Option.map (fun t => Char.ofNat ((b - 192) * 64 + (b2 - 128)) :: t) (utf8Decode rest2)
        else none
      | [] => none
    else if b < 240 then
      match rest with
      | b2 :: b3 :: rest3 =>
        if (128 ≤ b2 ∧ b2 < 192) ∧ (128 ≤ b3 ∧ b3 < 192) then
          if (b - 224) * 4096 + (b2 - 128) * 64 + (b3 - 128) < 2048 ∨
             (55296 ≤ (b - 224) * 4096 + (b2 - 128) * 64 + (b3 - 128) ∧
              (b - 224) * 4096 + (b2 - 128) * 64 + (b3 - 128) ≤ 57343) then none
          else
            Option.map (fun t => Char.ofNat ((b - 224) * 4096 + (b2 - 128) * 64 + (b3 - 128)) :: t)
              (utf8Decode rest3)
        else none
      | _ => none
    else if b < 245 then
      match rest with
      | b2 :: b3 :: b4 :: rest4 =>
        if (128 ≤ b2 ∧ b2 < 192) ∧ (128 ≤ b3 ∧ b3 < 192) ∧ (128 ≤ b4 ∧ b4 < 192) then
          if (b - 240) * 262144 + (b2 - 128) * 4096 + (b3 - 128) * 64 + (b4 - 128) < 65536 ∨
             1114111 < (b - 240) * 262144 + (b2 - 128) * 4096 + (b3 - 128) * 64 + (b4 - 128) then
            none
          else
            Option.map
              (fun t =>
                Char.ofNat ((b - 240) * 262144 + (b2 - 128) * 4096 + (b3 - 128) * 64 + (b4 - 128)) :: t)
              (utf8Decode rest4)
        else none
      | _ => none
    else none

/-- `bytes.decode('utf-8')` producing a string. -/
def utf8DecodeString (bs : List Nat) : Option String :=
  Option.map (fun cs => String.mk cs) (utf8Decode bs)

/-! ## Plain-text body decoding as done in `sendTextFromEmail` -/

/-- The literal run of 23 `=` characters that `sendTextFromEmail` appends
to the body before decoding (`toDecode = base64text + '='*23`). -/
def paddingLiteral : List Char := List.replicate 23 '='

/-- `base64.b64decode(base64text + '='*23)`: the byte-level decode of a
message body as performed by `sendTextFromEmail`. -/
def bodyDecodeBytes (base64text : List Char) : Option (List Nat) :=
  b64decodePy (base64text ++ paddingLiteral)

/-- `base64.b64decode(base64text + '='*23).decode('utf-8')`: the full body
decode of `sendTextFromEmail`; `none` means one of the two raised. -/
def bodyDecodeText (base64text : String) : Option String :=
  Option.bind (bodyDecodeBytes base64text.data) utf8DecodeString

/-! ## Message data model

Gmail message payloads are duck-typed nested dictionaries in the source.
A field is `Option` when the corresponding dictionary key may be absent;
reading an absent key raises `KeyError`. -/

/-- One entry of `emailData['payload']['parts']`.  `bodyData` is
`part['body']['data']` and `attachmentId` is `part['body']['attachmentId']`;
either key may be missing from the `body` dictionary. -/
structure Part where
  filename : String
  mimeType : String
  bodyData : Option String
  attachmentId : Option String
deriving DecidableEq, Repr

/-- One entry of `emailData['payload']['headers']`. -/
structure Header where
  name : String
  value : String
deriving DecidableEq, Repr

/-- `emailData['payload']`; the `parts` and `headers` keys may be absent. -/
structure Payload where
  parts : Option (List Part)
  headers : Option (List Header)
deriving DecidableEq, Repr

/-- A fetched message (`gmailService.users().messages().get(...)` result). -/
structure EmailData where
  id : String
  payload : Payload
deriving DecidableEq, Repr

/-- An observable external request issued by the pipeline: a Discord file
upload, a Discord text message, or a Gmail unread-marker removal request. -/
inductive Event
  /-- `discordChannel.send(file=...)` with the decoded bytes. -/
  | sendFile (channel : Nat) (bytes : List Nat)
  /-- `discordChannel.send(text)`. -/
  | sendText (channel : Nat) (text : String)
  /-- `gmailService.users().messages().modify(...)` removing `UNREAD`. -/
  | modifyRemoveUnread (msgId : String)
deriving DecidableEq, Repr

/-- Is an event the unread-marker removal request? -/
def isModifyEv : Event → Bool
  | Event.modifyRemoveUnread _ => true
  | _ => false

/-- The staging directory `./downloadedGmailPhotos`, as filename/content
pairs in creation order. -/
abbrev Dir := List (String × List Nat)

/-- Write a file: overwrite an existing name, else append. -/
def dirWrite (dir : Dir) (nm : String) (bytes : List Nat) : Dir :=
  if dir.any (fun e => e.1 = nm) then
    dir.map (fun e => if e.1 = nm then (nm, bytes) else e)
  else dir ++ [(nm, bytes)]

/-- `os.remove` of one staged file. -/
def dirRemove (dir : Dir) (nm : String) : Dir :=
  dir.filter (fun e => e.1 ≠ nm)

/-- The external services the pipeline calls: the Gmail API (message get,
attachment get, label modify) and the Discord channel sends.  Each is a
pure function; `Except.error` is a raised provider exception. -/
structure Oracle where
  msgGet : String → Except PyError EmailData
  attGet : String → String → Except PyError String
  sendFile : Nat → List Nat → Except PyError Unit
  sendText : Nat → String → Except PyError Unit
  modify : String → Except PyError Unit

/-- Replace the `modify` endpoint of an oracle. -/
def withModify (o : Oracle) (m : String → Except PyError Unit) : Oracle :=
  { o with modify := m }

/-! ## `getUnreadEmails`

The provider's `messages().list` endpoint is a function from the optional
`pageToken` argument to a response; the query string is computed once per
call and is the same for every page, so it is absorbed into the oracle.
The `while 'nextPageToken' in emailResults` loop tests and reads the token
of `emailResults`, which is never reassigned inside the loop (each new
page is bound to `response`), so the loop is modelled with explicit fuel:
`spinning` is the state of the accumulator after the fuel ran out with the
loop still going, `done` is an actual `return`. -/

/-- One page of a `messages().list` response: the `messages` and
`nextPageToken` keys may each be absent. -/
structure ListResponse where
  messages : Option (List String)
  nextPageToken : Option String
deriving DecidableEq, Repr

/-- Outcome of running `getUnreadEmails` with bounded fuel. -/
inductive GUEResult
  /-- The function returned this list. -/
  | done (emails : List String)
  /-- The fuel ran out with the `while` loop still running and this
  accumulator. -/
  | spinning (emails : List String)
deriving DecidableEq, Repr

/-- The `while 'nextPageToken' in emailResults` loop.  `emailResults` is
the response the loop condition inspects; it is never updated, exactly as
in the source.  A provider error or a missing `messages` key in the
fetched page raises, is caught by the function-level handler, and the
accumulated `emails` list is returned. -/
def getUnreadLoop (listE : Option String → Except PyError ListResponse)
    (emailResults : ListResponse) : List String → Nat → GUEResult
  | emails, fuel =>
    match emailResults.nextPageToken with
    | none => GUEResult.done emails
    | some tok =>
      match fuel with
      | 0 => GUEResult.spinning emails
      | fuel' + 1 =>
        match listE (some tok) with
        | Except.error _ => GUEResult.done emails
        | Except.ok response =>
          match response.messages with
          | none => GUEResult.done emails
          | some ms => getUnreadLoop listE emailResults (emails ++ ms) fuel'

/-- `getUnreadEmails`: first `messages().list` call, the optional initial
`extend`, then the pagination loop.  An error on the first call is caught
and the empty accumulator is returned. -/
def getUnreadEmails (listE : Option String → Except PyError ListResponse)
    (fuel : Nat) : GUEResult :=
  match listE none with
  | Except.error _ => GUEResult.done []
  | Except.ok emailResults =>
    getUnreadLoop listE emailResults
      (match emailResults.messages with
       | some ms => ms
       | none => []) fuel

/-! ## Content extraction -/

/-- Does `needle` occur at the front of `hay`? -/
def strAtFront : List Char → List Char → Bool
  | [], _ => true
  | _ :: _, [] => false
  | n :: ns, h :: hs => n = h && strAtFront ns hs

/-- Does `needle` occur as a contiguous run inside `hay`?  (Python's
`needle in hay` on strings.) -/
def hasSubList (needle : List Char) : List Char → Bool
  | [] => strAtFront needle []
  | h :: t => strAtFront needle (h :: t) || hasSubList needle t

/-- Python's substring containment test `needle in hay`. -/
def strHasSub (needle hay : String) : Bool := hasSubList needle.data hay.data

/-- The `for part in emailData['payload']['parts']` loop of
`downloadPhotosFromEmail`: for each part whose filename contains `.jpg`,
fetch the attachment body, decode it with URL-safe base64 and write the
bytes to `str(counter) + '.jpg'` in the staging directory.  There is no
handler inside the loop, so any raise propagates immediately, leaving the
directory as already written. -/
def downloadPhotosLoop (att : String → String → Except PyError String)
    (msgId : String) : List Part → Nat → Dir → Except PyError Unit × Dir
  | [], _, dir => (Except.ok (), dir)
  | part :: rest, counter, dir =>
    if strHasSub ".jpg" part.filename then
      match part.attachmentId with
      | none => (Except.error (PyError.keyError "attachmentId"), dir)
      | some attId =>
        match att msgId attId with
        | Except.error e => (Except.error e, dir)
        | Except.ok attachData =>
          match urlsafeB64decodePy attachData with
          | none => (Except.error PyError.binasciiError, dir)
          | some fileData =>
            downloadPhotosLoop att msgId rest (counter + 1)
              (dirWrite dir (Nat.repr counter ++ ".jpg") fileData)
    else downloadPhotosLoop att msgId rest counter dir

/-- `downloadPhotosFromEmail`: indexing `emailData['payload']['parts']`
raises `KeyError` when the key is absent; otherwise run the loop from
counter 0. -/
def downloadPhotosFromEmail (att : String → String → Except PyError String)
    (emailData : EmailData) (dir : Dir) : Except PyError Unit × Dir :=
  match emailData.payload.parts with
  | none => (Except.error (PyError.keyError "parts"), dir)
  | some parts => downloadPhotosLoop att emailData.id parts 0 dir

/-- The loop of `uploadPhotosFromDownloaded` over the directory listing
snapshot: send each staged file to the channel, then delete it.  raised
send leaves the current and remaining files in place. -/
def uploadLoop (sendF : Nat → List Nat → Except PyError Unit) (channel : Nat) :
    List (String × List Nat) → Dir → Except PyError Unit × Dir × List Event
  | [], dir => (Except.ok (), dir, [])
  | (nm, bytes) :: rest, dir =>
    match sendF channel bytes with
    | Except.error e => (Except.error e, dir, [Event.sendFile channel bytes])
    | Except.ok _ =>
      let r := uploadLoop sendF channel rest (dirRemove dir nm)
      (r.1, r.2.1, Event.sendFile channel bytes :: r.2.2)

/-- `uploadPhotosFromDownloaded`: list the staging directory once, then
send-and-remove each file. -/
def uploadPhotosFromDownloaded (sendF : Nat → List Nat → Except PyError Unit)
    (channel : Nat) (dir : Dir) : Except PyError Unit × Dir × List Event :=
  uploadLoop sendF channel dir dir

/-- The loop of `sendTextFromEmail`: for every part whose `mimeType`
equals `text/plain` (no `break`, so every matching part is processed),
read `part['body']['data']`, append the 23-character padding run and
decode.  On a decode failure the bare `except` handler evaluates
`sys.exc_info()`, but the module never imports `sys`, so the handler
itself raises `NameError("sys")`, which escapes the function. -/
def sendTextLoop (sendT : Nat → String → Except PyError Unit) (channel : Nat) :
    List Part → Except PyError Unit × List Event
  | [] => (Except.ok (), [])
  | part :: rest =>
    if part.mimeType = "text/plain" then
      match part.bodyData with
      | none => (Except.error (PyError.keyError "data"), [])
      | some base64text =>
        match bodyDecodeText base64text with
        | none => (Except.error (PyError.nameError "sys"), [])
        | some messageText =>
          match sendT channel messageText with
          | Except.error e => (Except.error e, [Event.sendText channel messageText])
          | Except.ok _ =>
            let r := sendTextLoop sendT channel rest
            (r.1, Event.sendText channel messageText :: r.2)
    else sendTextLoop sendT channel rest

/-- `sendTextFromEmail`: `KeyError` on an absent `parts` key, else the
per-part loop. -/
def sendTextFromEmail (sendT : Nat → String → Except PyError Unit)
    (channel : Nat) (emailData : EmailData) : Except PyError Unit × List Event :=
  match emailData.payload.parts with
  | none => (Except.error (PyError.keyError "parts"), [])
  | some parts => sendTextLoop sendT channel parts

/-- The loop of `sendSubjectLineFromEmail`: send `header['value']` for
every header named exactly `Subject` (again no `break`). -/
def sendSubjectLoop (sendT : Nat → String → Except PyError Unit) (channel : Nat) :
    List Header → Except PyError Unit × List Event
  | [] => (Except.ok (), [])
  | hdr :: rest =>
    if hdr.name = "Subject" then
      match sendT channel hdr.value with
      | Except.error e => (Except.error e, [Event.sendText channel hdr.value])
      | Except.ok _ =>
        let r := sendSubjectLoop sendT channel rest
        (r.1, Event.sendText channel hdr.value :: r.2)
    else sendSubjectLoop sendT channel rest

/-- `sendSubjectLineFromEmail`: `KeyError` on an absent `headers` key,
else the per-header loop. -/
def sendSubjectLineFromEmail (sendT : Nat → String → Except PyError Unit)
    (channel : Nat) (emailData : EmailData) : Except PyError Unit × List Event :=
  match emailData.payload.headers with
  | none => (Except.error (PyError.keyError "headers"), [])
  | some hs => sendSubjectLoop sendT channel hs

/-! ## Orchestration

`sendGmailAsDiscord` and `sendGmailSubjectAsDiscord` iterate over the
message list produced by `getUnreadEmails` (taken here as a parameter);
each message is processed inside a `try` whose handler logs and
`continue`s, so one failed message never aborts the batch.  The
unread-marker `modify` call sits after the delivery steps, inside its own
`try/except: pass`, so its outcome (the `modify` field of the oracle) is
ignored.  Each per-message function returns the staging directory, the
events it issued and whether the modify line was reached. -/

/-- The body of one iteration of the `for email in emails` loop of
`sendGmailAsDiscord`, with the surrounding `try/except ...: continue`
applied: fetch, stage photos, upload them, send the plain-text bodies,
then request unread-marker removal (its own result swallowed). -/
def processEmailFull (o : Oracle) (channel : Nat) (emailId : String) (dir : Dir) :
    Dir × List Event × Bool :=
  match o.msgGet emailId with
  | Except.error _ => (dir, [], false)
  | Except.ok emailData =>
    match downloadPhotosFromEmail o.attGet emailData dir with
    | (Except.error _, dir') => (dir', [], false)
    | (Except.ok _, dir') =>
      match uploadPhotosFromDownloaded o.sendFile channel dir' with
      | (Except.error _, dir2, evs) => (dir2, evs, false)
      | (Except.ok _, dir2, evs) =>
        match sendTextFromEmail o.sendText channel emailData with
        | (Except.error _, evs2) => (dir2, evs ++ evs2, false)
        | (Except.ok _, evs2) =>
          match o.modify emailData.id with
          | _ => (dir2, evs ++ evs2 ++ [Event.modifyRemoveUnread emailData.id], true)

/-- `sendGmailAsDiscord` over the already-fetched message id list. -/
def sendGmailAsDiscord (o : Oracle) (channel : Nat) :
    List String → Dir → Dir × List Event
  | [], dir => (dir, [])
  | emailId :: rest, dir =>
    let r := processEmailFull o channel emailId dir
    let rr := sendGmailAsDiscord o channel rest r.1
    (rr.1, r.2.1 ++ rr.2)

/-- The body of one iteration of the `for email in emails` loop of
`sendGmailSubjectAsDiscord`, with the surrounding handler applied. -/
def processEmailSubject (o : Oracle) (channel : Nat) (emailId : String) :
    List Event × Bool :=
  match o.msgGet emailId with
  | Except.error _ => ([], false)
  | Except.ok emailData =>
    match sendSubjectLineFromEmail o.sendText channel emailData with
    | (Except.error _, evs) => (evs, false)
    | (Except.ok _, evs) =>
      match o.modify emailData.id with
      | _ => (evs ++ [Event.modifyRemoveUnread emailData.id], true)

/-- `sendGmailSubjectAsDiscord` over the already-fetched message ids. -/
def sendGmailSubjectAsDiscord (o : Oracle) (channel : Nat) :
    List String → List Event
  | [] => []
  | emailId :: rest =>
    (processEmailSubject o channel emailId).1 ++ sendGmailSubjectAsDiscord o channel rest

/-! ## Scheduler -/

/-- One observable step of `do_stuff_every_x_seconds`. -/
inductive SchedEv
  /-- `await asyncio.sleep(timeout)`. -/
  | sleep (seconds : Nat)
  /-- `await stuff(*args)`: one orchestration pass of the named function. -/
  | invoke (taskName : String)
deriving DecidableEq, Repr

/-- `do_stuff_every_x_seconds`, unrolled for `n` iterations of its
`while True` loop: each iteration first sleeps the full interval, then
invokes the task. -/
def do_stuff_every_x_seconds (timeout : Nat) (stuffName : String) : Nat → List SchedEv
  | 0 => []
  | n + 1 =>
    SchedEv.sleep timeout :: SchedEv.invoke stuffName ::
      do_stuff_every_x_seconds timeout stuffName n

/-- The polling interval `main` passes to both `create_task` calls. -/
def pollIntervalSeconds : Nat := 300

/-- The scheduled task `main` creates for the camera label
(`do_stuff_every_x_seconds(300, sendGmailAsDiscord, ...)`). -/
def mainVideoTaskTrace (n : Nat) : List SchedEv :=
  do_stuff_every_x_seconds pollIntervalSeconds "sendGmailAsDiscord" n

/-- The scheduled task `main` creates for the chore label
(`do_stuff_every_x_seconds(300, sendGmailSubjectAsDiscord, ...)`). -/
def mainChoreTaskTrace (n : Nat) : List SchedEv :=
  do_stuff_every_x_seconds pollIntervalSeconds "sendGmailSubjectAsDiscord" n

/-- Total seconds slept before the `k`-th (0-indexed) invocation in a
scheduler trace. -/
def sleptBeforeInvoke : List SchedEv → Nat → Nat
  | [], _ => 0
  | SchedEv.sleep t :: rest, k => t + sleptBeforeInvoke rest k
  | SchedEv.invoke _ :: _, 0 => 0
  | SchedEv.invoke _ :: rest, k + 1 => sleptBeforeInvoke rest k

/-! ## Concrete provider stubs and messages used to evaluate the code -/

/-- A two-page `messages().list` stub: the first page carries ids `a`, `b`
and a continuation token `t`; the page for token `t` carries ids `c`, `d`
and no token. -/
def listStubTwoPages : Option String → Except PyError ListResponse
  | none => Except.ok ⟨some ["a", "b"], some "t"⟩
  | some _ => Except.ok ⟨some ["c", "d"], none⟩

/-- A stub whose first page succeeds with ids `a`, `b` and token `t`, and
whose fetch of the page for `t` raises. -/
def listStubPageTwoFails : Option String → Except PyError ListResponse
  | none => Except.ok ⟨some ["a", "b"], some "t"⟩
  | some _ => Except.error (PyError.providerError "boom")

/-- An attachment endpoint that always succeeds with an empty payload. -/
def attStubOk : String → String → Except PyError String :=
  fun _ _ => Except.ok ""

/-- A Discord text send that always succeeds. -/
def sendStubOk : Nat → String → Except PyError Unit :=
  fun _ _ => Except.ok ()

/-- An attachment endpoint for the mixed-attachment message: `a1` and `a3`
hold valid URL-safe base64, `a2` holds the malformed single character
`A` (its data-character count is 1 more than a multiple of 4, so the
decode raises). -/
def attStubMixed : String → String → Except PyError String :=
  fun _ attId =>
    if attId = "a1" then Except.ok "YWJj"
    else if attId = "a2" then Except.ok "A"
    else Except.ok "YWJk"

/-- A message with three `.jpg` attachment parts whose second attachment
body is malformed. -/
def emailMixedAttachments : EmailData :=
  ⟨"m3",
    ⟨some
      [⟨"photo1.jpg", "image/jpeg", none, some "a1"⟩,
       ⟨"photo2.jpg", "image/jpeg", none, some "a2"⟩,
       ⟨"photo3.jpg", "image/jpeg", none, some "a3"⟩], none⟩⟩

/-- A message whose payload has neither a `parts` nor a `headers` key. -/
def emailNoParts : EmailData := ⟨"m4", ⟨none, none⟩⟩

/-- A message with one `text/plain` part whose body has a data-character
count that is 1 more than a multiple of 4, so the base64 decode raises
even after the appended padding run. -/
def emailBadBody : EmailData :=
  ⟨"m5", ⟨some [⟨"", "text/plain", some "AAAAA", none⟩], none⟩⟩

/-- A message with two `text/plain` parts, decoding to `a` and `b`. -/
def emailTwoTextParts : EmailData :=
  ⟨"m6", ⟨some [⟨"", "text/plain", some "YQ==", none⟩, ⟨"", "text/plain", some "Yg==", none⟩], none⟩⟩

/-- An oracle for the zero-content scenario: every fetch returns the
message `z1` whose payload has an empty part list and an empty header
list, sends succeed, and the unread-marker removal request itself always
fails. -/
def oracleZeroContent : Oracle where
  msgGet := fun _ => Except.ok ⟨"z1", ⟨some [], some []⟩⟩
  attGet := attStubOk
  sendFile := fun _ _ => Except.ok ()
  sendText := sendStubOk
  modify := fun _ => Except.error (PyError.providerError "modify failed")

/-! ## Theorems -/

/-- The pagination loop never updates `emailResults`, so with the two-page
stub it refetches the page for token `t` forever, appending its items on
every iteration. -/
theorem getUnreadLoop_twoPages_spins (fuel : Nat) :
    ∀ acc, getUnreadLoop listStubTwoPages ⟨some ["a", "b"], some "t"⟩ acc fuel =
      GUEResult.spinning (acc ++ (List.replicate fuel ["c", "d"]).flatten) := by
  induction fuel with
  | zero => intro acc; simp [getUnreadLoop]
  | succ n ih => intro acc; simp [getUnreadLoop, listStubTwoPages, ih, List.replicate_succ, List.flatten_cons]

/-- Claim C1 (code_bug evaluation): on a provider with two pages
(`a`,`b` then `c`,`d`), the union in page order would be
`[a, b, c, d]`; instead, because the loop keeps reading the token of the
never-reassigned `emailResults`, after two loop iterations the
accumulator is `[a, b, c, d, c, d]` — the second page merged twice — and
the loop has still not returned. -/
theorem c1_pagination_duplicates :
    getUnreadEmails listStubTwoPages 2 =
      GUEResult.spinning ["a", "b", "c", "d", "c", "d"] := rfl

/-- Claim C2 (code_bug evaluation): on the two-page stub the loop of
`getUnreadEmails` never terminates — for every fuel bound it is still
spinning, having appended the second page once per iteration, even though
the provider reported no continuation token on that page. -/
theorem c2_pagination_never_terminates (fuel : Nat) :
    getUnreadEmails listStubTwoPages fuel =
      GUEResult.spinning (["a", "b"] ++ (List.replicate fuel ["c", "d"]).flatten) := by
  simp [getUnreadEmails, listStubTwoPages, getUnreadLoop_twoPages_spins fuel]

/-- Claim C7 (confirmed): if the first page succeeds (items `ms`, token
`tok`) and the fetch of the page for `tok` raises, `getUnreadEmails`
catches the error and returns exactly the already-accumulated first-page
items — not an empty list, and no propagated error. -/
theorem c7_partial_results (listE : Option String → Except PyError ListResponse)
    (ms : List String) (tok : String) (e : PyError) (fuel : Nat)
    (h1 : listE none = Except.ok ⟨some ms, some tok⟩)
    (h2 : listE (some tok) = Except.error e) :
    getUnreadEmails listE (fuel + 1) = GUEResult.done ms := by
  simp [getUnreadEmails, h1, getUnreadLoop, h2]

/-- Witness for C7: with the stub that fails on the second page, the call
returns exactly the first page `["a", "b"]`. -/
theorem c7_witness : getUnreadEmails listStubPageTwoFails 5 = GUEResult.done ["a", "b"] :=
  c7_partial_results listStubPageTwoFails ["a", "b"] "t" (PyError.providerError "boom") 4
    rfl rfl

/-- Claim C3 (code_bug evaluation): with three `.jpg` parts whose second
attachment body is malformed, the loop of `downloadPhotosFromEmail` stages
the first decoded buffer, then the decode failure raises out of the
function: the third (valid) attachment is never fetched, its buffer is
never produced, and the exception escapes — the failure is not swallowed. -/
theorem c3_failure_aborts_extraction :
    downloadPhotosFromEmail attStubMixed emailMixedAttachments [] =
      (Except.error PyError.binasciiError, [("0.jpg", [97, 98, 99])]) := rfl

/-- Counterexample for C4: on a message whose payload lacks the `parts`
(resp. `headers`) key, each of the three extraction functions raises
`KeyError` instead of returning with no output. -/
theorem c4_counterexample :
    downloadPhotosFromEmail attStubOk emailNoParts [] =
      (Except.error (PyError.keyError "parts"), []) ∧
    sendTextFromEmail sendStubOk 1 emailNoParts =
      (Except.error (PyError.keyError "parts"), []) ∧
    sendSubjectLineFromEmail sendStubOk 1 emailNoParts =
      (Except.error (PyError.keyError "headers"), []) :=
  ⟨rfl, rfl, rfl⟩

/-- Claim C4 (corrected): for every message lacking the expected
structure, each of the three extraction functions raises `KeyError`
(propagated to the caller) rather than yielding an empty result: the
attachment and plain-text extractors raise `KeyError "parts"` when the
part tree is absent, and the subject extractor raises
`KeyError "headers"` when the header list is absent. -/
theorem c4_missing_structure_raises (att : String → String → Except PyError String)
    (sendT : Nat → String → Except PyError Unit) (channel : Nat)
    (e : EmailData) (dir : Dir) :
    (e.payload.parts = none →
      downloadPhotosFromEmail att e dir = (Except.error (PyError.keyError "parts"), dir) ∧
      sendTextFromEmail sendT channel e = (Except.error (PyError.keyError "parts"), [])) ∧
    (e.payload.headers = none →
      sendSubjectLineFromEmail sendT channel e =
        (Except.error (PyError.keyError "headers"), [])) := by
  constructor
  · intro h
    exact ⟨by simp [downloadPhotosFromEmail, h], by simp [sendTextFromEmail, h]⟩
  · intro h
    simp [sendSubjectLineFromEmail, h]

/-- Witness for C4: the amended statement applied to the concrete message
with neither key. -/
theorem c4_witness :
    emailNoParts.payload.parts = none ∧
    downloadPhotosFromEmail attStubOk emailNoParts [] =
      (Except.error (PyError.keyError "parts"), []) ∧
    sendSubjectLineFromEmail sendStubOk 1 emailNoParts =
      (Except.error (PyError.keyError "headers"), []) :=
  ⟨rfl, ((c4_missing_structure_raises attStubOk sendStubOk 1 emailNoParts []).1 rfl).1,
    (c4_missing_structure_raises attStubOk sendStubOk 1 emailNoParts []).2 rfl⟩

/-- Claim C5 (code_bug evaluation): on a `text/plain` part whose body has
a data-character count 1 more than a multiple of 4, the base64 decode
raises even after the appended padding run; the bare `except` handler then
evaluates `sys.exc_info()`, but the module never imports `sys`, so a
`NameError` escapes `sendTextFromEmail` instead of the failure being
logged and swallowed. -/
theorem c5_nameerror_escapes :
    sendTextFromEmail sendStubOk 1 emailBadBody =
      (Except.error (PyError.nameError "sys"), []) := rfl

/-- Counterexample for C6: on a message with two `text/plain` parts the
extraction loop (which has no `break`) sends a text message for each of
them — two text results, not at most one from the first such part. -/
theorem c6_counterexample :
    sendTextFromEmail sendStubOk 7 emailTwoTextParts =
      (Except.ok (), [Event.sendText 7 "a", Event.sendText 7 "b"]) ∧
    ¬ (sendTextFromEmail sendStubOk 7 emailTwoTextParts).2.length ≤ 1 := by
  exact ⟨rfl, by decide⟩

/-- Cumulative sleep before the `k`-th invocation of a
`do_stuff_every_x_seconds` trace: each of the first `k + 1` iterations
sleeps the full interval before its invocation. -/
theorem sleptBeforeInvoke_do_stuff (timeout : Nat) (tag : String) :
    ∀ (n k : Nat), k < n →
      sleptBeforeInvoke (do_stuff_every_x_seconds timeout tag n) k = (k + 1) * timeout := by
  intro n
  induction n with
  | zero => intro k hk; exact absurd hk (Nat.not_lt_zero k)
  | succ m ih =>
    intro k hk
    cases k with
    | zero => simp [do_stuff_every_x_seconds, sleptBeforeInvoke]
    | succ j =>
      have hj : j < m := by omega
      simp [do_stuff_every_x_seconds, sleptBeforeInvoke, ih j hj]
      ring

/-- Claim C10 (confirmed): both tasks `main` schedules sleep the full
300-second interval before every invocation — the cumulative sleep before
the `k`-th orchestration pass is `(k + 1) * 300`, and each trace begins
with a sleep, never with an invocation. -/
theorem c10_sleep_full_interval_first (n k : Nat) (hk : k < n) :
    sleptBeforeInvoke (mainVideoTaskTrace n) k = (k + 1) * 300 ∧
    sleptBeforeInvoke (mainChoreTaskTrace n) k = (k + 1) * 300 ∧
    (mainVideoTaskTrace n).head? = some (SchedEv.sleep 300) ∧
    (mainChoreTaskTrace n).head? = some (SchedEv.sleep 300) := by
  obtain ⟨m, rfl⟩ : ∃ m, n = m + 1 := ⟨n - 1, by omega⟩
  refine ⟨sleptBeforeInvoke_do_stuff 300 _ (m + 1) k hk,
    sleptBeforeInvoke_do_stuff 300 _ (m + 1) k hk, ?_, ?_⟩ <;>
    simp [mainVideoTaskTrace, mainChoreTaskTrace, pollIntervalSeconds,
      do_stuff_every_x_seconds]

/-- Witness for C10: the first scheduled pass of the camera task happens
only after one full 300-second sleep. -/
theorem c10_witness :
    (0 : Nat) < 1 ∧ sleptBeforeInvoke (mainVideoTaskTrace 1) 0 = (0 + 1) * 300 :=
  ⟨by decide, (c10_sleep_full_interval_first 1 0 (by decide)).1⟩


/-- The upload loop only issues file sends: never a modify request. -/
theorem uploadLoop_no_modify (sendF : Nat → List Nat → Except PyError Unit) (channel : Nat) :
    ∀ (files : List (String × List Nat)) (dir : Dir),
      (uploadLoop sendF channel files dir).2.2.any isModifyEv = false := by
  intro files
  induction files with
  | nil => intro dir; simp [uploadLoop]
  | cons f rest ih =>
    intro dir
    obtain ⟨nm, bytes⟩ := f
    cases hS : sendF channel bytes with
    | error e => simp [uploadLoop, hS, isModifyEv]
    | ok u => simp [uploadLoop, hS, isModifyEv, ih]

/-- The plain-text loop only issues text sends: never a modify request. -/
theorem sendTextLoop_no_modify (sendT : Nat → String → Except PyError Unit) (channel : Nat) :
    ∀ parts : List Part, (sendTextLoop sendT channel parts).2.any isModifyEv = false := by
  intro parts
  induction parts with
  | nil => simp [sendTextLoop]
  | cons p rest ih =>
    by_cases hp : p.mimeType = "text/plain"
    · cases hd : p.bodyData with
      | none => simp [sendTextLoop, hp, hd]
      | some d =>
        cases hdec : bodyDecodeText d with
        | none => simp [sendTextLoop, hp, hd, hdec]
        | some t =>
          cases hS : sendT channel t with
          | error e => simp [sendTextLoop, hp, hd, hdec, hS, isModifyEv]
          | ok u => simp [sendTextLoop, hp, hd, hdec, hS, isModifyEv, ih]
    · simp [sendTextLoop, hp, ih]

/-- The subject loop only issues text sends: never a modify request. -/
theorem sendSubjectLoop_no_modify (sendT : Nat → String → Except PyError Unit) (channel : Nat) :
    ∀ hs : List Header, (sendSubjectLoop sendT channel hs).2.any isModifyEv = false := by
  intro hs
  induction hs with
  | nil => simp [sendSubjectLoop]
  | cons hdr rest ih =>
    by_cases hn : hdr.name = "Subject"
    · cases hS : sendT channel hdr.value with
      | error e => simp [sendSubjectLoop, hn, hS, isModifyEv]
      | ok u => simp [sendSubjectLoop, hn, hS, isModifyEv, ih]
    · simp [sendSubjectLoop, hn, ih]

/-- `sendTextFromEmail` never issues a modify request. -/
theorem sendTextFromEmail_no_modify (sendT : Nat → String → Except PyError Unit)
    (channel : Nat) (d : EmailData) :
    (sendTextFromEmail sendT channel d).2.any isModifyEv = false := by
  cases hp : d.payload.parts with
  | none => simp [sendTextFromEmail, hp]
  | some parts => simp [sendTextFromEmail, hp, sendTextLoop_no_modify]

/-- `sendSubjectLineFromEmail` never issues a modify request. -/
theorem sendSubjectLineFromEmail_no_modify (sendT : Nat → String → Except PyError Unit)
    (channel : Nat) (d : EmailData) :
    (sendSubjectLineFromEmail sendT channel d).2.any isModifyEv = false := by
  cases hh : d.payload.headers with
  | none => simp [sendSubjectLineFromEmail, hh]
  | some hs => simp [sendSubjectLineFromEmail, hh, sendSubjectLoop_no_modify]

/-- A predicate false on a whole list is false on its `dropLast`. -/
theorem any_false_dropLast (l : List Event) (h : l.any isModifyEv = false) :
    l.dropLast.any isModifyEv = false := by
  rw [List.any_eq_false] at h ⊢
  intro x hx
  exact h x (List.dropLast_subset l hx)

/-- In the full pass, the per-message events contain the unread-marker
removal request exactly when all delivery steps returned without raising,
and the removal request can only be the final event — every delivery
event of the message precedes it. -/
theorem processEmailFull_modify_iff (o : Oracle) (channel : Nat) (emailId : String) (dir : Dir) :
    (processEmailFull o channel emailId dir).2.1.any isModifyEv =
      (processEmailFull o channel emailId dir).2.2 ∧
    (processEmailFull o channel emailId dir).2.1.dropLast.any isModifyEv = false := by
  cases hg : o.msgGet emailId with
  | error e => simp [processEmailFull, hg]
  | ok d =>
    rcases hD : downloadPhotosFromEmail o.attGet d dir with ⟨rd, dir'⟩
    cases rd with
    | error e => simp [processEmailFull, hg, hD]
    | ok u =>
      rcases hU : uploadPhotosFromDownloaded o.sendFile channel dir' with ⟨ru, dir2, evsU⟩
      have hUno : evsU.any isModifyEv = false := by
        have h0 := uploadLoop_no_modify o.sendFile channel dir' dir'
        rw [show uploadLoop o.sendFile channel dir' dir' = (ru, dir2, evsU) from hU] at h0
        exact h0
      cases ru with
      | error e =>
        simp [processEmailFull, hg, hD, hU, hUno, any_false_dropLast _ hUno]
      | ok u2 =>
        rcases hT : sendTextFromEmail o.sendText channel d with ⟨rt, evsT⟩
        have hTno : evsT.any isModifyEv = false := by
          have h1 := sendTextFromEmail_no_modify o.sendText channel d
          rw [show sendTextFromEmail o.sendText channel d = (rt, evsT) from hT] at h1
          exact h1
        cases rt with
        | error e =>
          have hcat : (evsU ++ evsT).any isModifyEv = false := by
            simp [List.any_append, hUno, hTno]
          simp [processEmailFull, hg, hD, hU, hT, hcat, any_false_dropLast _ hcat]
        | ok u3 =>
          have hcat : (evsU ++ evsT).any isModifyEv = false := by
            simp [List.any_append, hUno, hTno]
          constructor
          · simp [processEmailFull, hg, hD, hU, hT, List.any_append, isModifyEv]
          · simp only [processEmailFull, hg, hD, hU, hT]
            rw [show evsU ++ evsT ++ [Event.modifyRemoveUnread d.id] =
              (evsU ++ evsT) ++ [Event.modifyRemoveUnread d.id] from rfl]
            rw [List.dropLast_concat]
            exact hcat

/-- In the subject pass, the per-message events contain the unread-marker
removal request exactly when delivery returned without raising, and only
as the final event. -/
theorem processEmailSubject_modify_iff (o : Oracle) (channel : Nat) (emailId : String) :
    (processEmailSubject o channel emailId).1.any isModifyEv =
      (processEmailSubject o channel emailId).2 ∧
    (processEmailSubject o channel emailId).1.dropLast.any isModifyEv = false := by
  cases hg : o.msgGet emailId with
  | error e => simp [processEmailSubject, hg]
  | ok d =>
    rcases hS : sendSubjectLineFromEmail o.sendText channel d with ⟨rs, evsS⟩
    have hSno : evsS.any isModifyEv = false := by
      have h1 := sendSubjectLineFromEmail_no_modify o.sendText channel d
      rw [show sendSubjectLineFromEmail o.sendText channel d = (rs, evsS) from hS] at h1
      exact h1
    cases rs with
    | error e => simp [processEmailSubject, hg, hS, hSno, any_false_dropLast _ hSno]
    | ok u =>
      constructor
      · simp [processEmailSubject, hg, hS, List.any_append, isModifyEv]
      · simp only [processEmailSubject, hg, hS]
        rw [List.dropLast_concat]
        exact hSno

/-- Zero-content full pass: a fetched message with an empty part list
produces no delivery events but still gets its unread-marker removal
request. -/
theorem processEmailFull_zero_content (o : Oracle) (channel : Nat) (emailId : String)
    (e : EmailData) (hg : o.msgGet emailId = Except.ok e) (hp : e.payload.parts = some []) :
    processEmailFull o channel emailId [] = ([], [Event.modifyRemoveUnread e.id], true) := by
  simp [processEmailFull, hg, downloadPhotosFromEmail, hp, downloadPhotosLoop,
    uploadPhotosFromDownloaded, uploadLoop, sendTextFromEmail, sendTextLoop]

/-- Zero-content subject pass: a fetched message with an empty header
list still gets its unread-marker removal request. -/
theorem processEmailSubject_zero_content (o : Oracle) (channel : Nat) (emailId : String)
    (e : EmailData) (hg : o.msgGet emailId = Except.ok e) (hh : e.payload.headers = some []) :
    processEmailSubject o channel emailId = ([Event.modifyRemoveUnread e.id], true) := by
  simp [processEmailSubject, hg, sendSubjectLineFromEmail, hh, sendSubjectLoop]

/-- The result of the modify call is discarded (`try/except: pass`), so
the per-message outcome does not depend on the modify endpoint. -/
theorem processEmailFull_withModify (o : Oracle) (m' : String → Except PyError Unit)
    (channel : Nat) (emailId : String) (dir : Dir) :
    processEmailFull (withModify o m') channel emailId dir =
      processEmailFull o channel emailId dir := rfl

/-- Subject-pass analogue: the modify endpoint's result is discarded. -/
theorem processEmailSubject_withModify (o : Oracle) (m' : String → Except PyError Unit)
    (channel : Nat) (emailId : String) :
    processEmailSubject (withModify o m') channel emailId =
      processEmailSubject o channel emailId := rfl

/-- A failing (or arbitrarily replaced) modify endpoint changes nothing
about a full batch run: no message is marked failed and the remaining
batch is processed identically. -/
theorem sendGmailAsDiscord_withModify (o : Oracle) (m' : String → Except PyError Unit)
    (channel : Nat) :
    ∀ (ids : List String) (dir : Dir),
      sendGmailAsDiscord (withModify o m') channel ids dir =
        sendGmailAsDiscord o channel ids dir := by
  intro ids
  induction ids with
  | nil => intro dir; rfl
  | cons i rest ih =>
    intro dir
    simp [sendGmailAsDiscord, processEmailFull_withModify, ih]

/-- Subject-batch analogue of modify-independence. -/
theorem sendGmailSubjectAsDiscord_withModify (o : Oracle) (m' : String → Except PyError Unit)
    (channel : Nat) :
    ∀ ids : List String,
      sendGmailSubjectAsDiscord (withModify o m') channel ids =
        sendGmailSubjectAsDiscord o channel ids := by
  intro ids
  induction ids with
  | nil => rfl
  | cons i rest ih =>
    simp [sendGmailSubjectAsDiscord, processEmailSubject_withModify, ih]


/-- Claim C9 (confirmed): in both orchestration passes, the per-message
events contain an unread-marker removal request exactly when the delivery
steps returned without raising, the removal request is never followed by
another event of that message (it comes only after all delivery events),
a fetched message with zero matching content still gets the removal
request, and replacing the modify endpoint (e.g. by an always-failing
one) changes nothing about either batch function — a removal failure is
swallowed and aborts neither the message nor the rest of the batch. -/
theorem c9_ack_only_after_delivery (o : Oracle) (m' : String → Except PyError Unit)
    (channel : Nat) (emailId : String) (ids : List String) (dir : Dir) :
    ((processEmailFull o channel emailId dir).2.1.any isModifyEv =
      (processEmailFull o channel emailId dir).2.2) ∧
    ((processEmailFull o channel emailId dir).2.1.dropLast.any isModifyEv = false) ∧
    ((processEmailSubject o channel emailId).1.any isModifyEv =
      (processEmailSubject o channel emailId).2) ∧
    ((processEmailSubject o channel emailId).1.dropLast.any isModifyEv = false) ∧
    (∀ e, o.msgGet emailId = Except.ok e → e.payload.parts = some [] → dir = [] →
      processEmailFull o channel emailId dir = ([], [Event.modifyRemoveUnread e.id], true)) ∧
    (∀ e, o.msgGet emailId = Except.ok e → e.payload.headers = some [] →
      processEmailSubject o channel emailId = ([Event.modifyRemoveUnread e.id], true)) ∧
    sendGmailAsDiscord (withModify o m') channel ids dir =
      sendGmailAsDiscord o channel ids dir ∧
    sendGmailSubjectAsDiscord (withModify o m') channel ids =
      sendGmailSubjectAsDiscord o channel ids := by
  refine ⟨(processEmailFull_modify_iff o channel emailId dir).1,
    (processEmailFull_modify_iff o channel emailId dir).2,
    (processEmailSubject_modify_iff o channel emailId).1,
    (processEmailSubject_modify_iff o channel emailId).2,
    ?_, ?_,
    sendGmailAsDiscord_withModify o m' channel ids dir,
    sendGmailSubjectAsDiscord_withModify o m' channel ids⟩
  · intro e hg hp hdir
    subst hdir
    exact processEmailFull_zero_content o channel emailId e hg hp
  · intro e hg hh
    exact processEmailSubject_zero_content o channel emailId e hg hh

/-- Witness for C9: with an oracle whose message has an empty part and
header list and whose modify endpoint always fails, both passes issue
exactly the removal request and still report the message delivered. -/
theorem c9_witness :
    processEmailFull oracleZeroContent 3 "z1" [] =
      ([], [Event.modifyRemoveUnread "z1"], true) ∧
    processEmailSubject oracleZeroContent 3 "z1" =
      ([Event.modifyRemoveUnread "z1"], true) := by
  have h := c9_ack_only_after_delivery oracleZeroContent (fun _ => Except.ok ()) 3 "z1" [] []
  exact ⟨h.2.2.2.2.1 ⟨"z1", ⟨some [], some []⟩⟩ rfl rfl rfl,
    h.2.2.2.2.2.1 ⟨"z1", ⟨some [], some []⟩⟩ rfl rfl⟩


/-- When every `text/plain` body decodes and sends successfully, the
plain-text loop sends one message per matching part, in part order. -/
theorem sendTextLoop_all_ok (sendT : Nat → String → Except PyError Unit) (channel : Nat) :
    ∀ parts : List Part,
      (∀ p ∈ parts, p.mimeType = "text/plain" →
        ∃ d t, p.bodyData = some d ∧ bodyDecodeText d = some t ∧
          sendT channel t = Except.ok ()) →
      sendTextLoop sendT channel parts =
        (Except.ok (),
          parts.filterMap fun p =>
            if p.mimeType = "text/plain" then
              Option.map (Event.sendText channel) (Option.bind p.bodyData bodyDecodeText)
            else none) := by
  intro parts
  induction parts with
  | nil => intro h; simp [sendTextLoop]
  | cons p rest ih =>
    intro h
    have hrest := ih fun q hq => h q (List.mem_cons_of_mem p hq)
    by_cases hp : p.mimeType = "text/plain"
    · obtain ⟨d, t, hd, hdec, hsend⟩ := h p (List.mem_cons_self p rest) hp
      simp [sendTextLoop, hp, hd, hdec, hsend, hrest, List.filterMap_cons]
    · simp [sendTextLoop, hp, hrest, List.filterMap_cons]

/-- Claim C6 (corrected): `sendTextFromEmail` does not stop at the first
`text/plain` part — when every matching body decodes and sends
successfully it produces one text send per `text/plain` part, in part
order (the loop has no `break`). -/
theorem c6_every_text_part_sent (sendT : Nat → String → Except PyError Unit)
    (channel : Nat) (mid : String) (parts : List Part) (hdrs : Option (List Header))
    (h : ∀ p ∈ parts, p.mimeType = "text/plain" →
      ∃ d t, p.bodyData = some d ∧ bodyDecodeText d = some t ∧
        sendT channel t = Except.ok ()) :
    sendTextFromEmail sendT channel ⟨mid, ⟨some parts, hdrs⟩⟩ =
      (Except.ok (),
        parts.filterMap fun p =>
          if p.mimeType = "text/plain" then
            Option.map (Event.sendText channel) (Option.bind p.bodyData bodyDecodeText)
          else none) := by
  simp only [sendTextFromEmail]
  exact sendTextLoop_all_ok sendT channel parts h

/-- Witness for C6: a message with two `text/plain` parts produces two
text sends, in order. -/
theorem c6_witness :
    sendTextFromEmail sendStubOk 9
        ⟨"m6w", ⟨some [⟨"", "text/plain", some "YQ==", none⟩,
                       ⟨"", "text/plain", some "Yg==", none⟩], none⟩⟩ =
      (Except.ok (), [Event.sendText 9 "a", Event.sendText 9 "b"]) := by
  have h := c6_every_text_part_sent sendStubOk 9 "m6w"
    [⟨"", "text/plain", some "YQ==", none⟩, ⟨"", "text/plain", some "Yg==", none⟩] none ?_
  · exact h
  · intro p hp hm
    simp only [List.mem_cons, List.not_mem_nil, or_false] at hp
    rcases hp with rfl | rfl
    · exact ⟨"YQ==", "a", rfl, by decide, rfl⟩
    · exact ⟨"Yg==", "b", rfl, by decide, rfl⟩


/-- Decoding table applied to an encoding digit recovers its value. -/
theorem b64val_digit : ∀ x, x < 64 → b64val (b64digit x) = some x := by decide

/-- No alphabet digit is the padding character. -/
theorem b64digit_ne_pad : ∀ x, x < 64 → ¬(b64digit x = '=') := by decide

/-- Every alphabet digit is ASCII. -/
theorem b64digit_ascii (x : Nat) : isNonAscii (b64digit x) = false := by
  by_cases hx : x < 64
  · have h : ∀ y, y < 64 → isNonAscii (b64digit y) = false := by decide
    exact h x hx
  · unfold b64digit
    rw [List.getD_eq_default]
    · decide
    · have hl : b64chars.length = 64 := rfl
      omega

/-- At quad position 0 a run of padding characters is skipped entirely
and the decode ends successfully. -/
theorem a2b_pad_qp0 : ∀ (m lc pads : Nat), a2b (List.replicate m '=') 0 lc pads = some [] := by
  intro m
  induction m with
  | zero => intro lc pads; simp [a2b]
  | succ k ih => intro lc pads; simp [List.replicate_succ, a2b, ih]

/-- At quad position 2 or 3, a padding run long enough to complete the
quad ends the decode successfully. -/
theorem a2b_pads_done : ∀ (m qp lc pads : Nat), 2 ≤ qp → 1 ≤ m → 4 ≤ qp + pads + m →
    a2b (List.replicate m '=') qp lc pads = some [] := by
  intro m
  induction m with
  | zero => intro qp lc pads h2 h1 h4; omega
  | succ k ih =>
    intro qp lc pads h2 h1 h4
    by_cases hdone : 4 ≤ qp + (pads + 1)
    · simp [List.replicate_succ, a2b, h2, hdone]
    · have hk1 : 1 ≤ k := by omega
      have hk4 : 4 ≤ qp + (pads + 1) + k := by omega
      simp [List.replicate_succ, a2b, h2, hdone, ih qp lc (pads + 1) h2 hk1 hk4]

/-- Decoding one full encoded quad recovers its three source bytes and
continues in the initial state. -/
theorem a2b_quad (b1 b2 b3 : Nat) (h1 : b1 < 256) (h2 : b2 < 256) (h3 : b3 < 256)
    (cs : List Char) :
    a2b (b64digit (b1 / 4) :: b64digit (b1 % 4 * 16 + b2 / 16) ::
         b64digit (b2 % 16 * 4 + b3 / 64) :: b64digit (b3 % 64) :: cs) 0 0 0 =
      Option.map (fun t => b1 :: b2 :: b3 :: t) (a2b cs 0 0 0) := by
  have x1 : b1 / 4 < 64 := by omega
  have x2 : b1 % 4 * 16 + b2 / 16 < 64 := by omega
  have x3 : b2 % 16 * 4 + b3 / 64 < 64 := by omega
  have x4 : b3 % 64 < 64 := by omega
  have e1 : b1 / 4 * 4 + (b1 % 4 * 16 + b2 / 16) / 16 = b1 := by omega
  have e2 : (b1 % 4 * 16 + b2 / 16) % 16 * 16 + (b2 % 16 * 4 + b3 / 64) / 4 = b2 := by omega
  have e3 : (b2 % 16 * 4 + b3 / 64) % 4 * 64 + b3 % 64 = b3 := by omega
  simp only [a2b, if_neg (b64digit_ne_pad _ x1), if_neg (b64digit_ne_pad _ x2),
    if_neg (b64digit_ne_pad _ x3), if_neg (b64digit_ne_pad _ x4),
    b64val_digit _ x1, b64val_digit _ x2, b64val_digit _ x3, b64val_digit _ x4]
  simp only [Option.map_map, Function.comp]
  simp only [e1, e2, e3]
  rfl

/-- An encoded string carries at most two padding characters. -/
theorem padLen_le_two (bs : List Nat) : padLen bs ≤ 2 := by
  unfold padLen
  split <;> omega

/-- Dropping a full 3-byte group does not change the padding length. -/
theorem padLen_cons3 (b1 b2 b3 : Nat) (rest : List Nat) :
    padLen (b1 :: b2 :: b3 :: rest) = padLen rest := by
  unfold padLen
  have h : (b1 :: b2 :: b3 :: rest).length % 3 = rest.length % 3 := by
    simp [List.length_cons]
    omega
  rw [h]

/-- Round trip: the unpadded encoding of any byte string followed by any
sufficiently long padding run decodes to exactly that byte string. -/
theorem a2b_encNoPad : ∀ (bs : List Nat), (∀ b ∈ bs, b < 256) → ∀ m, padLen bs ≤ m →
    a2b (encNoPad bs ++ List.replicate m '=') 0 0 0 = some bs
  | [], _, m, _ => by simp [encNoPad, a2b_pad_qp0]
  | [b1], h, m, hm => by
    have h1 : b1 < 256 := h b1 (by simp)
    have hm2 : 2 ≤ m := by
      have : padLen [b1] = 2 := rfl
      omega
    have e1 : b1 / 4 * 4 + b1 % 4 * 16 / 16 = b1 := by omega
    simp only [encNoPad, List.cons_append, List.nil_append, a2b,
      if_neg (b64digit_ne_pad _ (by omega : b1 / 4 < 64)),
      if_neg (b64digit_ne_pad _ (by omega : b1 % 4 * 16 < 64)),
      b64val_digit _ (by omega : b1 / 4 < 64), b64val_digit _ (by omega : b1 % 4 * 16 < 64)]
    have hp := a2b_pads_done m 2 0 0 (by omega) (by omega) (by omega)
    simp [hp]
    omega
  | [b1, b2], h, m, hm => by
    have h1 : b1 < 256 := h b1 (by simp)
    have h2 : b2 < 256 := h b2 (by simp)
    have hm1 : 1 ≤ m := by
      have : padLen [b1, b2] = 1 := rfl
      omega
    have e1 : b1 / 4 * 4 + (b1 % 4 * 16 + b2 / 16) / 16 = b1 := by omega
    have e2 : (b1 % 4 * 16 + b2 / 16) % 16 * 16 + b2 % 16 * 4 / 4 = b2 := by omega
    simp only [encNoPad, List.cons_append, List.nil_append, a2b,
      if_neg (b64digit_ne_pad _ (by omega : b1 / 4 < 64)),
      if_neg (b64digit_ne_pad _ (by omega : b1 % 4 * 16 + b2 / 16 < 64)),
      if_neg (b64digit_ne_pad _ (by omega : b2 % 16 * 4 < 64)),
      b64val_digit _ (by omega : b1 / 4 < 64),
      b64val_digit _ (by omega : b1 % 4 * 16 + b2 / 16 < 64),
      b64val_digit _ (by omega : b2 % 16 * 4 < 64)]
    have hp := a2b_pads_done m 3 0 0 (by omega) (by omega) (by omega)
    simp [hp]
    omega
  | b1 :: b2 :: b3 :: rest, h, m, hm => by
    have h1 : b1 < 256 := h b1 (by simp)
    have h2 : b2 < 256 := h b2 (by simp)
    have h3 : b3 < 256 := h b3 (by simp)
    have ih := a2b_encNoPad rest (fun b hb => h b (by simp [hb])) m
      (by rw [padLen_cons3] at hm; exact hm)
    have hquad := a2b_quad b1 b2 b3 h1 h2 h3 (encNoPad rest ++ List.replicate m '=')
    calc a2b (encNoPad (b1 :: b2 :: b3 :: rest) ++ List.replicate m '=') 0 0 0
        = a2b (b64digit (b1 / 4) :: b64digit (b1 % 4 * 16 + b2 / 16) ::
            b64digit (b2 % 16 * 4 + b3 / 64) :: b64digit (b3 % 64) ::
            (encNoPad rest ++ List.replicate m '=')) 0 0 0 := by
          simp [encNoPad]
      _ = Option.map (fun t => b1 :: b2 :: b3 :: t)
            (a2b (encNoPad rest ++ List.replicate m '=') 0 0 0) := hquad
      _ = some (b1 :: b2 :: b3 :: rest) := by rw [ih]; rfl


/-- Every character of an unpadded encoding is ASCII. -/
theorem encNoPad_ascii : ∀ (bs : List Nat), ∀ c ∈ encNoPad bs, isNonAscii c = false
  | [] => by simp [encNoPad]
  | [b1] => by simp [encNoPad, b64digit_ascii]
  | [b1, b2] => by simp [encNoPad, b64digit_ascii]
  | b1 :: b2 :: b3 :: rest => by
    intro c hc
    simp only [encNoPad, List.mem_cons] at hc
    rcases hc with rfl | rfl | rfl | rfl | hc
    · exact b64digit_ascii _
    · exact b64digit_ascii _
    · exact b64digit_ascii _
    · exact b64digit_ascii _
    · exact encNoPad_ascii rest c hc

/-- An encoding followed by padding passes the ASCII check. -/
theorem encNoPad_pads_ascii (bs : List Nat) (k : Nat) :
    (encNoPad bs ++ List.replicate k '=').any isNonAscii = false := by
  rw [List.any_eq_false]
  intro c hc
  rcases List.mem_append.mp hc with h | h
  · simp [encNoPad_ascii bs c h]
  · have hc2 : c = '=' := List.eq_of_mem_replicate h
    subst hc2
    decide

/-- The body decode of `sendTextFromEmail` (which appends its own run of
23 padding characters) succeeds on the unpadded encoding of any byte
string followed by any number of padding characters. -/
theorem bodyDecodeBytes_enc (bs : List Nat) (h : ∀ b ∈ bs, b < 256) (k : Nat) :
    bodyDecodeBytes (encNoPad bs ++ List.replicate k '=') = some bs := by
  unfold bodyDecodeBytes b64decodePy paddingLiteral
  rw [List.append_assoc, ← List.replicate_add]
  rw [if_neg (by simp [encNoPad_pads_ascii bs (k + 23)])]
  exact a2b_encNoPad bs h (k + 23) (by have := padLen_le_two bs; omega)

/-- Claim C8 (confirmed): for every byte string, the encoded body with
`j` of its trailing padding characters removed (any `j` up to the padding
length, which is at most 2, so removing 1, 2 or 3 padding characters is
covered) still decodes to exactly those bytes, and appending `m` extra
padding characters to the correctly padded encoding neither changes the
decoded result nor raises. -/
theorem c8_padding_tolerance (bs : List Nat) (h : ∀ b ∈ bs, b < 256) (j m : Nat)
    (hj : j ≤ padLen bs) :
    b64encode bs = (encNoPad bs ++ List.replicate (padLen bs - j) '=') ++
      List.replicate j '=' ∧
    bodyDecodeBytes (encNoPad bs ++ List.replicate (padLen bs - j) '=') = some bs ∧
    bodyDecodeBytes (b64encode bs ++ List.replicate m '=') = some bs := by
  refine ⟨?_, bodyDecodeBytes_enc bs h (padLen bs - j), ?_⟩
  · unfold b64encode
    rw [List.append_assoc, ← List.replicate_add, Nat.sub_add_cancel hj]
  · unfold b64encode
    rw [List.append_assoc, ← List.replicate_add]
    exact bodyDecodeBytes_enc bs h (padLen bs + m)

/-- Witness for C8: the encoding of `abcd` with both padding characters
removed, and with three extra padding characters appended, both decode to
`abcd`. -/
theorem c8_witness :
    bodyDecodeBytes (encNoPad [97, 98, 99, 100] ++
        List.replicate (padLen [97, 98, 99, 100] - 2) '=') = some [97, 98, 99, 100] ∧
    bodyDecodeBytes (b64encode [97, 98, 99, 100] ++ List.replicate 3 '=') =
      some [97, 98, 99, 100] := by
  have h := c8_padding_tolerance [97, 98, 99, 100] (by decide) 2 3 (by decide)
  exact ⟨h.2.1, h.2.2⟩


end PiBot
